import Mathlib

/-!
Verification of the Presenton JS SDK request-execution engine.

The definitions below are a shallow embedding of `src/client.ts`,
`src/errors.ts` and `src/validation.ts`:

* the error class hierarchy of `errors.ts` becomes the inductive type
  `PresentonError`, with `isRetryable` mirroring the flag each class
  constructor sets;
* `getBackoffDelay` is the pure backoff function, with `Math.random()`
  passed in explicitly as a rational draw in `[0, 1)`;
* `Presenton.request` is the retry loop, with the per-attempt transport
  call `this._doRequest(...)` abstracted as a function from the attempt
  index to its classified outcome, and the per-attempt random draw
  abstracted likewise; the function additionally returns the list of
  delays it awaited and the number of attempts it performed;
* `Presenton.doRequest` is the single-attempt transport classifier,
  over an explicit model of the `fetch` outcome;
* `PresentationsAPI.waitForCompletion` is the polling loop, driven by a
  fuel parameter (the JS loop is unbounded; fuel exhaustion is reported
  as a distinct outcome) and instrumented with an event trace recording
  observer invocations and timed suspensions.
-/

-- ============================================================================
-- Error taxonomy (src/errors.ts)
-- ============================================================================

/-- Detail record attached to validation errors (`ValidationErrorDetail` in
`errors.ts`); `received` is rendered as a string. -/
structure ValidationErrorDetail where
  field : String
  message : String
  received : Option String
  expected : Option String
deriving DecidableEq, Repr

/-- Detail record a task snapshot may carry in its `error` field
(`Record<string, unknown>` in the source; only the `message` member is ever
read, by `waitForCompletion`). -/
structure ErrorDetail where
  message : Option String
deriving DecidableEq, Repr

/-- The error class hierarchy of `errors.ts`, flattened to a closed sum.
Each constructor corresponds to one exported class and carries the fields
of that class.  `RateLimitError extends APIError` with `statusCode` fixed to
429 and `response` fixed to `undefined`, so only its remaining fields
appear. -/
inductive PresentonError where
  | AuthenticationError (message : String)
  | ValidationError (message : String) (details : List ValidationErrorDetail)
      (field : Option String)
  | APIError (message : String) (statusCode : Nat) (response : Option String)
      (requestId : Option String)
  | NetworkError (message : String)
  | RateLimitError (message : String) (retryAfter : Option Nat)
      (requestId : Option String)
  | GenerationError (message : String) (taskId : Option String)
      (details : Option ErrorDetail)
  | UploadError (message : String) (fileName : Option String)
deriving DecidableEq, Repr

/-- The `isRetryable` flag each class constructor passes to
the `PresentonError` base constructor: `false` for authentication, validation and
generation errors, `true` for network and upload errors, and
`statusCode >= 500 || statusCode === 429` for `APIError` (hence `true` for
`RateLimitError`, whose status code is 429). -/
def PresentonError.isRetryable : PresentonError → Bool
  | .AuthenticationError _ => false
  | .ValidationError _ _ _ => false
  | .APIError _ statusCode _ _ => decide (500 ≤ statusCode) || decide (statusCode = 429)
  | .NetworkError _ => true
  | .RateLimitError _ _ _ => true
  | .GenerationError _ _ _ => false
  | .UploadError _ _ => true

/-- The `code` string each class sets (`RateLimitError` inherits
`API_ERROR` from `APIError`). -/
def PresentonError.code : PresentonError → String
  | .AuthenticationError _ => "AUTHENTICATION_ERROR"
  | .ValidationError _ _ _ => "VALIDATION_ERROR"
  | .APIError _ _ _ _ => "API_ERROR"
  | .NetworkError _ => "NETWORK_ERROR"
  | .RateLimitError _ _ _ => "API_ERROR"
  | .GenerationError _ _ _ => "GENERATION_ERROR"
  | .UploadError _ _ => "UPLOAD_ERROR"

/-- The JS truthiness test `err.retryAfter` performed by the retry loop on a
`RateLimitError`: yields the wait duration only when the field is present
and nonzero. -/
def PresentonError.truthyRetryAfter : PresentonError → Option Nat
  | .RateLimitError _ (some n) _ => if n = 0 then none else some n
  | _ => none

/-- The closed error taxonomy of the spec (section 4.1). -/
inductive SpecErrorKind where
  | authentication
  | validation
  | rateLimited
  | serverOrTransient
  | clientRequest
  | responseMalformed
  | generationFailed
  | uploadFailed
deriving DecidableEq, Repr

/-- Modelled from the spec: the taxonomy kind of each error value, following
the classification the spec gives for error classes and HTTP statuses;
used to state claims phrased in terms of kinds.  An `APIError` is keyed on
its status code: 5xx is transient, 429 is rate limiting, a 2xx status can
only arise from a body that failed to parse, everything else is a plain
client-request failure. -/
def specKind : PresentonError → SpecErrorKind
  | .AuthenticationError _ => .authentication
  | .ValidationError _ _ _ => .validation
  | .APIError _ statusCode _ _ =>
      if 500 ≤ statusCode then .serverOrTransient
      else if statusCode = 429 then .rateLimited
      else if 200 ≤ statusCode ∧ statusCode < 300 then .responseMalformed
      else .clientRequest
  | .NetworkError _ => .serverOrTransient
  | .RateLimitError _ _ _ => .rateLimited
  | .GenerationError _ _ _ => .generationFailed
  | .UploadError _ _ => .uploadFailed

-- ============================================================================
-- Backoff policy (src/client.ts, getBackoffDelay)
-- ============================================================================

/-- Function `getBackoffDelay(attempt, baseDelay)` from `client.ts`, with the
`Math.random()` draw passed in as `rand`:
`min(baseDelay * 2^attempt + rand * 0.3 * (baseDelay * 2^attempt), 30000)`. -/
def getBackoffDelay (attempt : Nat) (baseDelay : ℚ) (rand : ℚ) : ℚ :=
  let exponentialDelay := baseDelay * 2 ^ attempt
  let jitter := rand * (3 / 10) * exponentialDelay
  min (exponentialDelay + jitter) 30000

-- ============================================================================
-- Retry engine (src/client.ts, Presenton.request)
-- ============================================================================

/-- The wait the retry loop performs after a retryable failure when attempts
remain: the rate-limit override `retryAfter * 1000` when the error is a
`RateLimitError` with a truthy `retryAfter`, otherwise the computed
exponential backoff for the current attempt index. -/
def retryWait (err : PresentonError) (attempt : Nat) (rand : Nat → ℚ)
    (retryDelay : ℚ) : ℚ :=
  match err.truthyRetryAfter with
  | some n => (n : ℚ) * 1000
  | none => getBackoffDelay attempt retryDelay (rand attempt)

/-- The body of the `for` loop of `Presenton.request`, recursing on the number of
retries still allowed (`remaining = retries - attempt`).  `op` gives the
classified outcome of `this._doRequest(...)` on each attempt and `rand` the
`Math.random()` draw used for the backoff of that attempt.  Returns the final
outcome, the list of delays awaited, and the number of attempts performed.
A non-retryable error is rethrown at once; at the last allowed attempt the
loop exits and `lastError` — the error of that attempt — is thrown. -/
def Presenton.requestAux {T : Type} (op : Nat → Except PresentonError T)
    (rand : Nat → ℚ) (retryDelay : ℚ) :
    Nat → Nat → Except PresentonError T × List ℚ × Nat
  | remaining, attempt =>
    match op attempt with
    | .ok v => (.ok v, [], 1)
    | .error err =>
      if err.isRetryable = false then
        (.error err, [], 1)
      else
        match remaining with
        | 0 => (.error err, [], 1)
        | r + 1 =>
          let rest := Presenton.requestAux op rand retryDelay r (attempt + 1)
          (rest.1, retryWait err attempt rand retryDelay :: rest.2.1, rest.2.2 + 1)

/-- Method `Presenton.request(path, method, body, options)`: run the attempt
loop from attempt 0 with the full retry budget. -/
def Presenton.request {T : Type} (op : Nat → Except PresentonError T)
    (rand : Nat → ℚ) (retryDelay : ℚ) (retries : Nat) :
    Except PresentonError T × List ℚ × Nat :=
  Presenton.requestAux op rand retryDelay retries 0

-- ============================================================================
-- Transport (src/client.ts, Presenton._doRequest)
-- ============================================================================

/-- The parts of a `fetch` `Response` that `_doRequest` reads.
`retryAfterHeader` is the integer value of the `retry-after` header when the
header is present (and parses), `requestId` the `x-request-id` header,
`errorBodyMessage` the message `APIError.fromResponse` extracts from an
error body, and `jsonBody` the result of parsing the body as the expected
structure `T` (`none` when parsing fails). -/
structure HttpResponse (T : Type) where
  status : Nat
  retryAfterHeader : Option Nat
  requestId : Option String
  errorBodyMessage : Option String
  jsonBody : Option T

/-- Property `response.ok`: status in the inclusive-exclusive range [200, 300). -/
def HttpResponse.ok {T : Type} (r : HttpResponse T) : Bool :=
  decide (200 ≤ r.status) && decide (r.status < 300)

/-- Outcome of the `fetch` call inside `_doRequest`: either a response, or a
transport-level failure (the message of the thrown error). -/
inductive FetchOutcome (T : Type) where
  | response (r : HttpResponse T)
  | networkFailure (message : String)

/-- Constructor `APIError.fromResponse(statusCode, body, requestId)`: message taken from
the error body when one was extracted, else the generic status message. -/
def APIError.fromResponse (statusCode : Nat) (bodyMessage : Option String)
    (requestId : Option String) : PresentonError :=
  .APIError (bodyMessage.getD ("API request failed with status " ++ toString statusCode))
    statusCode bodyMessage requestId

/-- Method `Presenton._doRequest`, from the point the `fetch` outcome is known:
transport failure becomes a `NetworkError`; a non-ok response is classified
by status (401/403 authentication, 429 rate limit with the `retry-after`
header, everything else through `APIError.fromResponse`); an ok response is
parsed, a parse failure becoming a non-retryable `APIError` carrying the
2xx status. -/
def Presenton.doRequest {T : Type} (outcome : FetchOutcome T) :
    Except PresentonError T :=
  match outcome with
  | .networkFailure msg =>
      .error (.NetworkError ("Network request failed: " ++ msg))
  | .response r =>
      if r.ok = false then
        if r.status = 401 ∨ r.status = 403 then
          .error (.AuthenticationError "Invalid API key or insufficient permissions")
        else if r.status = 429 then
          .error (.RateLimitError "Rate limit exceeded. Please slow down your requests."
            r.retryAfterHeader r.requestId)
        else
          .error (APIError.fromResponse r.status r.errorBodyMessage r.requestId)
      else
        match r.jsonBody with
        | some v => .ok v
        | none =>
            .error (.APIError "Failed to parse API response as JSON" r.status
              none r.requestId)

-- ============================================================================
-- Validation (src/validation.ts)
-- ============================================================================

/-- JS `String.prototype.startsWith`, expressed on the character-list
representation of the string (so that it evaluates inside the kernel):
`s` starts with `pre` iff the characters of `pre` are a prefix of those of `s`. -/
def stringStartsWith (s pre : String) : Bool :=
  pre.data.isPrefixOf s.data

/-- Function `validateTaskId` from `validation.ts`.  The source also rejects
non-string arguments at runtime; in this typed embedding the argument is a
`String`, so the `!taskId` branch is the empty-string case. -/
def validateTaskId (taskId : String) : Except PresentonError Unit :=
  if taskId = "" then
    .error (.ValidationError "Task ID is required and must be a string"
      [{ field := "taskId",
         message := "Task ID is required and must be a string",
         received := some taskId,
         expected := some "string (e.g., \x27task-xxxxxxxxxx\x27)" }] none)
  else if stringStartsWith taskId "task-" = false then
    .error (.ValidationError
      ("Invalid task ID format. Expected format: \"task-xxxxxxxxxx\", received: \""
        ++ taskId ++ "\"")
      [{ field := "taskId",
         message := "Task ID must start with \"task-\"",
         received := some taskId,
         expected := some "task-xxxxxxxxxx" }] none)
  else
    .ok ()

-- ============================================================================
-- Task poller (src/client.ts, PresentationsAPI)
-- ============================================================================

/-- Task status enum from `types.ts`. -/
inductive TaskStatus where
  | pending
  | completed
  | error
deriving DecidableEq, Repr

/-- Structure `GenerateSyncResponse`: the result payload of a completed generation. -/
structure GenerateSyncResponse where
  presentationId : String
  path : String
  editPath : String
  creditsConsumed : Nat
deriving DecidableEq, Repr

/-- Structure `TaskStatusResponse`: one polled snapshot of a server-side task. -/
structure TaskStatusResponse where
  message : String
  createdAt : String
  updatedAt : String
  taskId : String
  status : TaskStatus
  data : Option GenerateSyncResponse
  error : Option ErrorDetail
deriving DecidableEq, Repr

/-- Structure `PollOptions`: the poll interval and the optional status observer.  The
observer may raise; its exceptions (type `ε`, deliberately distinct from
`PresentonError`) are modelled with `Except`. -/
structure PollOptions (ε : Type) where
  interval : Option Nat
  onStatusChange : Option (TaskStatusResponse → Except ε Unit)

/-- Function `validatePollOptions` from `validation.ts`: a configured interval below
500 ms is rejected. -/
def validatePollOptions {ε : Type} (options : PollOptions ε) :
    Except PresentonError Unit :=
  match options.interval with
  | none => .ok ()
  | some i =>
      if i < 500 then
        .error (.ValidationError "Polling interval must be at least 500ms"
          [{ field := "interval",
             message := "Polling interval must be at least 500ms",
             received := some (toString i),
             expected := some ">= 500" }] none)
      else
        .ok ()

/-- The message of the `GenerationError` raised on an `Error` snapshot:
`(status.error?.message as string) || "Presentation generation failed"`. -/
def serverErrorMessage (err : Option ErrorDetail) : String :=
  match err with
  | some d =>
      match d.message with
      | some m => if m = "" then "Presentation generation failed" else m
      | none => "Presentation generation failed"
  | none => "Presentation generation failed"

/-- Events the poll loop performs, recorded in order: observer invocations
and timed suspensions (`await delay(interval)`). -/
inductive PollEvent (ε : Type) where
  | observerCall (snapshot : TaskStatusResponse)
  | sleep (ms : Nat)
deriving DecidableEq, Repr

/-- Outcome of the poll loop.  `outOfFuel` marks fuel exhaustion of the
embedding (the JS loop would still be running); `observerRaised` is an
exception escaping from the caller-supplied observer, propagated unchanged
and distinct from every classified error. -/
inductive PollOutcome (ε : Type) where
  | success (value : GenerateSyncResponse)
  | failure (e : PresentonError)
  | observerRaised (e : ε)
  | outOfFuel
deriving DecidableEq, Repr

/-- The `while (true)` loop of `waitForCompletion`, recursing on fuel.
`fetch` gives the outcome of `this.getStatus(taskId)` on each iteration
(routed through the retry engine, so a `fetch` error is already the final
classified error of that inner call).  Returns the outcome, the ordered
event trace, and the number of snapshots fetched.  The observer, when
configured, is invoked on every fetched snapshot before the status is
inspected; if it raises, the exception escapes the loop at once. -/
def PresentationsAPI.waitAux {ε : Type} (taskId : String)
    (fetch : Nat → Except PresentonError TaskStatusResponse)
    (observer : Option (TaskStatusResponse → Except ε Unit)) (interval : Nat) :
    Nat → Nat → PollOutcome ε × List (PollEvent ε) × Nat
  | fuel, i =>
    match fetch i with
    | .error e => (.failure e, [], 1)
    | .ok status =>
      let observed : Except ε (List (PollEvent ε)) :=
        match observer with
        | some f => (f status).map (fun _ => [PollEvent.observerCall status])
        | none => .ok []
      match observed with
      | .error e => (.observerRaised e, [PollEvent.observerCall status], 1)
      | .ok callEvents =>
        match status.status with
        | .completed =>
          match status.data with
          | none =>
              (.failure (.GenerationError "Task completed but no data was returned"
                (some taskId) none), callEvents, 1)
          | some d => (.success d, callEvents, 1)
        | .error =>
            (.failure (.GenerationError (serverErrorMessage status.error)
              (some taskId) status.error), callEvents, 1)
        | .pending =>
          match fuel with
          | 0 => (.outOfFuel, callEvents ++ [PollEvent.sleep interval], 1)
          | f + 1 =>
            let rest := PresentationsAPI.waitAux taskId fetch observer interval f (i + 1)
            (rest.1, callEvents ++ PollEvent.sleep interval :: rest.2.1, rest.2.2 + 1)

/-- Method `PresentationsAPI.getStatus(taskId)`: validate the task id, then issue
the request.  The network call (through the retry engine) is abstracted as
its final outcome `fetchResult`; the second component counts the network
requests issued (0 when validation rejects the id). -/
def PresentationsAPI.getStatus (taskId : String)
    (fetchResult : Except PresentonError TaskStatusResponse) :
    Except PresentonError TaskStatusResponse × Nat :=
  match validateTaskId taskId with
  | .error e => (.error e, 0)
  | .ok _ => (fetchResult, 1)

/-- Method `PresentationsAPI.waitForCompletion(taskId, options)`: validate the task
id and the poll options, then run the poll loop with the configured
interval (default 2000 ms).  Returns the outcome, the event trace, and the
number of snapshots fetched (0 when validation rejects the input). -/
def PresentationsAPI.waitForCompletion {ε : Type} (taskId : String)
    (options : PollOptions ε)
    (fetch : Nat → Except PresentonError TaskStatusResponse) (fuel : Nat) :
    PollOutcome ε × List (PollEvent ε) × Nat :=
  match validateTaskId taskId with
  | .error e => (.failure e, [], 0)
  | .ok _ =>
    match validatePollOptions options with
    | .error e => (.failure e, [], 0)
    | .ok _ =>
      PresentationsAPI.waitAux taskId fetch options.onStatusChange
        (options.interval.getD 2000) fuel 0

/-- Interleaved observer-call / sleep trace produced by `k` consecutive
pending snapshots starting at iteration `i`, when an observer is
configured. -/
def pollEvents {ε : Type} (snap : Nat → TaskStatusResponse) (interval : Nat) :
    Nat → Nat → List (PollEvent ε)
  | 0, _ => []
  | k + 1, i =>
      PollEvent.observerCall (snap i) :: PollEvent.sleep interval ::
        pollEvents snap interval k (i + 1)

-- ============================================================================
-- Retry engine: unfolding lemmas
-- ============================================================================

/-- A successful attempt returns at once: no delay, one attempt. -/
theorem Presenton.requestAux_ok {T : Type} (op : Nat → Except PresentonError T)
    (rand : Nat → ℚ) (retryDelay : ℚ) (remaining attempt : Nat) (v : T)
    (h : op attempt = .ok v) :
    Presenton.requestAux op rand retryDelay remaining attempt = (.ok v, [], 1) := by
  unfold Presenton.requestAux
  rw [h]

/-- A non-retryable failure is rethrown at once: no delay, one attempt,
whatever the remaining budget. -/
theorem Presenton.requestAux_nonretryable {T : Type}
    (op : Nat → Except PresentonError T) (rand : Nat → ℚ) (retryDelay : ℚ)
    (remaining attempt : Nat) (e : PresentonError)
    (h : op attempt = .error e) (hr : e.isRetryable = false) :
    Presenton.requestAux op rand retryDelay remaining attempt = (.error e, [], 1) := by
  unfold Presenton.requestAux
  rw [h]
  simp [hr]

/-- A retryable failure on the last allowed attempt is rethrown as the last
observed error, with no further delay. -/
theorem Presenton.requestAux_last {T : Type}
    (op : Nat → Except PresentonError T) (rand : Nat → ℚ) (retryDelay : ℚ)
    (attempt : Nat) (e : PresentonError)
    (h : op attempt = .error e) (hr : e.isRetryable = true) :
    Presenton.requestAux op rand retryDelay 0 attempt = (.error e, [], 1) := by
  unfold Presenton.requestAux
  rw [h]
  simp [hr]

/-- A retryable failure with budget remaining waits `retryWait` and retries. -/
theorem Presenton.requestAux_step {T : Type}
    (op : Nat → Except PresentonError T) (rand : Nat → ℚ) (retryDelay : ℚ)
    (r attempt : Nat) (e : PresentonError)
    (h : op attempt = .error e) (hr : e.isRetryable = true) :
    Presenton.requestAux op rand retryDelay (r + 1) attempt =
      ((Presenton.requestAux op rand retryDelay r (attempt + 1)).1,
       retryWait e attempt rand retryDelay ::
         (Presenton.requestAux op rand retryDelay r (attempt + 1)).2.1,
       (Presenton.requestAux op rand retryDelay r (attempt + 1)).2.2 + 1) := by
  conv_lhs => unfold Presenton.requestAux
  rw [h]
  simp [hr]

/-- When every attempt fails retryably, the loop exhausts its budget: it
performs `remaining + 1` attempts, waits `retryWait` between consecutive
attempts, and finally rethrows the error of the last attempt. -/
theorem Presenton.requestAux_allFail {T : Type}
    (op : Nat → Except PresentonError T) (rand : Nat → ℚ) (retryDelay : ℚ)
    (errAt : Nat → PresentonError)
    (hop : ∀ j, op j = .error (errAt j))
    (hret : ∀ j, (errAt j).isRetryable = true) :
    ∀ remaining attempt,
      Presenton.requestAux op rand retryDelay remaining attempt =
        (.error (errAt (attempt + remaining)),
         (List.range remaining).map
           (fun j => retryWait (errAt (attempt + j)) (attempt + j) rand retryDelay),
         remaining + 1) := by
  intro remaining
  induction remaining with
  | zero =>
      intro attempt
      rw [Presenton.requestAux_last op rand retryDelay attempt (errAt attempt)
        (hop attempt) (hret attempt)]
      simp
  | succ r ih =>
      intro attempt
      rw [Presenton.requestAux_step op rand retryDelay r attempt (errAt attempt)
        (hop attempt) (hret attempt), ih (attempt + 1)]
      refine Prod.ext ?_ (Prod.ext ?_ ?_)
      · have h1 : attempt + 1 + r = attempt + (r + 1) := by omega
        rw [h1]
      · simp only [List.range_succ_eq_map, List.map_cons, List.map_map]
        refine List.cons_eq_cons.mpr ⟨by simp, List.map_congr_left ?_⟩
        intro j _
        have hj : attempt + 1 + j = attempt + (j + 1) := by omega
        simp [Function.comp, hj]
      · simp

/-- Reaching attempt `i`: when the first `i` attempts (from `attempt`) all
fail retryably and the budget allows them, the loop behaves as the loop
started at attempt `attempt + i` with the reduced budget, prefixed by the
`i` waits and `i` extra attempts. -/
theorem Presenton.requestAux_reach {T : Type}
    (op : Nat → Except PresentonError T) (rand : Nat → ℚ) (retryDelay : ℚ)
    (errAt : Nat → PresentonError) :
    ∀ (i remaining attempt : Nat), i ≤ remaining →
    (∀ j, j < i → op (attempt + j) = .error (errAt (attempt + j)) ∧
        (errAt (attempt + j)).isRetryable = true) →
    Presenton.requestAux op rand retryDelay remaining attempt =
      ((Presenton.requestAux op rand retryDelay (remaining - i) (attempt + i)).1,
       (List.range i).map
           (fun j => retryWait (errAt (attempt + j)) (attempt + j) rand retryDelay)
         ++ (Presenton.requestAux op rand retryDelay (remaining - i) (attempt + i)).2.1,
       (Presenton.requestAux op rand retryDelay (remaining - i) (attempt + i)).2.2 + i) := by
  intro i
  induction i with
  | zero =>
      intro remaining attempt _ _
      simp
  | succ i ih =>
      intro remaining attempt hle hfail
      obtain ⟨r, rfl⟩ : ∃ r, remaining = r + 1 :=
        ⟨remaining - 1, by omega⟩
      have h0 := hfail 0 (by omega)
      rw [Nat.add_zero] at h0
      rw [Presenton.requestAux_step op rand retryDelay r attempt (errAt attempt)
        h0.1 h0.2]
      have hshift : ∀ j, j < i →
          op (attempt + 1 + j) = .error (errAt (attempt + 1 + j)) ∧
          (errAt (attempt + 1 + j)).isRetryable = true := by
        intro j hj
        have := hfail (j + 1) (by omega)
        have hidx : attempt + (j + 1) = attempt + 1 + j := by omega
        rwa [hidx] at this
      rw [ih r (attempt + 1) (by omega) hshift]
      have hrem : r + 1 - (i + 1) = r - i := by omega
      have hatt : attempt + 1 + i = attempt + (i + 1) := by omega
      rw [hrem, hatt]
      refine Prod.ext rfl (Prod.ext ?_ ?_)
      · simp only [List.range_succ_eq_map, List.map_cons, List.map_map,
          List.cons_append]
        refine List.cons_eq_cons.mpr ⟨by simp, ?_⟩
        refine congrArg (fun l => l ++ _) (List.map_congr_left ?_)
        intro j _
        have hj : attempt + 1 + j = attempt + (j + 1) := by omega
        simp [Function.comp, hj]
      · show _ + i + 1 = _ + (i + 1)
        omega

-- ============================================================================
-- Taxonomy and backoff bounds
-- ============================================================================

/-- The code-level `isRetryable` flag agrees with the spec taxonomy: an
error is retryable exactly when its kind is `RateLimited`,
`ServerOrTransient` or `UploadFailed`. -/
theorem isRetryable_iff_specKind (e : PresentonError) :
    e.isRetryable = true ↔
      (specKind e = .rateLimited ∨ specKind e = .serverOrTransient ∨
        specKind e = .uploadFailed) := by
  cases e with
  | APIError message statusCode response requestId =>
      by_cases h1 : 500 ≤ statusCode <;> by_cases h2 : statusCode = 429 <;>
        by_cases h3 : 200 ≤ statusCode ∧ statusCode < 300 <;>
        simp [PresentonError.isRetryable, specKind, h1, h2, h3]
  | _ => simp [PresentonError.isRetryable, specKind]

/-- Jitter range and envelope of the backoff: for a positive base and a
random draw in `[0, 1)`, the computed delay lies between the uncapped
exponential delay and 1.3 times it, both capped at 30000 ms. -/
theorem getBackoffDelay_bounds (attempt : Nat) (baseDelay r : ℚ)
    (hbase : 0 < baseDelay) (h0 : 0 ≤ r) (h1 : r < 1) :
    (0 ≤ r * (3 / 10) * (baseDelay * 2 ^ attempt) ∧
      r * (3 / 10) * (baseDelay * 2 ^ attempt) <
        (3 / 10) * (baseDelay * 2 ^ attempt)) ∧
    min (baseDelay * 2 ^ attempt) 30000 ≤ getBackoffDelay attempt baseDelay r ∧
    getBackoffDelay attempt baseDelay r ≤
      min ((13 / 10) * (baseDelay * 2 ^ attempt)) 30000 := by
  have hE : (0 : ℚ) < baseDelay * 2 ^ attempt := by positivity
  have hj0 : 0 ≤ r * (3 / 10) * (baseDelay * 2 ^ attempt) :=
    mul_nonneg (mul_nonneg h0 (by norm_num)) hE.le
  have hj1 : r * (3 / 10) * (baseDelay * 2 ^ attempt) <
      (3 / 10) * (baseDelay * 2 ^ attempt) := by nlinarith
  refine ⟨⟨hj0, hj1⟩, ?_, ?_⟩
  · exact min_le_min (by linarith) le_rfl
  · exact min_le_min (by nlinarith) le_rfl

-- ============================================================================
-- Task poller: unfolding lemmas
-- ============================================================================

/-- A failing snapshot fetch ends the loop with that (already classified)
error. -/
theorem PresentationsAPI.waitAux_fetchError {ε : Type} (taskId : String)
    (fetch : Nat → Except PresentonError TaskStatusResponse)
    (observer : Option (TaskStatusResponse → Except ε Unit)) (interval : Nat)
    (fuel i : Nat) (e : PresentonError) (h : fetch i = .error e) :
    PresentationsAPI.waitAux taskId fetch observer interval fuel i =
      (.failure e, [], 1) := by
  unfold PresentationsAPI.waitAux
  rw [h]

/-- A raising observer ends the loop at once with its exception, after the
one observer call, with no further fetch. -/
theorem PresentationsAPI.waitAux_observerRaises {ε : Type} (taskId : String)
    (fetch : Nat → Except PresentonError TaskStatusResponse)
    (f : TaskStatusResponse → Except ε Unit) (interval : Nat) (fuel i : Nat)
    (s : TaskStatusResponse) (e : ε)
    (hf : fetch i = .ok s) (hraise : f s = .error e) :
    PresentationsAPI.waitAux taskId fetch (some f) interval fuel i =
      (.observerRaised e, [PollEvent.observerCall s], 1) := by
  unfold PresentationsAPI.waitAux
  rw [hf]
  simp [hraise, Except.map]

/-- One poller iteration with no observer configured, written as a function
of the snapshot: terminal snapshots end the loop, a pending snapshot sleeps
and recurses. -/
theorem PresentationsAPI.waitAux_none_step {ε : Type} (taskId : String)
    (fetch : Nat → Except PresentonError TaskStatusResponse) (interval : Nat)
    (fuel i : Nat) (s : TaskStatusResponse) (hf : fetch i = .ok s) :
    PresentationsAPI.waitAux (ε := ε) taskId fetch none interval fuel i =
      match s.status with
      | .completed =>
        match s.data with
        | none =>
            (.failure (.GenerationError "Task completed but no data was returned"
              (some taskId) none), [], 1)
        | some d => (.success d, [], 1)
      | .error =>
          (.failure (.GenerationError (serverErrorMessage s.error)
            (some taskId) s.error), [], 1)
      | .pending =>
        match fuel with
        | 0 => (.outOfFuel, [PollEvent.sleep interval], 1)
        | fl + 1 =>
          ((PresentationsAPI.waitAux (ε := ε) taskId fetch none interval fl (i + 1)).1,
           PollEvent.sleep interval ::
             (PresentationsAPI.waitAux (ε := ε) taskId fetch none interval fl (i + 1)).2.1,
           (PresentationsAPI.waitAux (ε := ε) taskId fetch none interval fl (i + 1)).2.2 + 1) := by
  conv_lhs => unfold PresentationsAPI.waitAux
  rw [hf]
  cases hst : s.status with
  | pending => cases fuel <;> simp [hst]
  | completed => cases hd : s.data <;> simp [hst, hd]
  | error => simp [hst]

/-- One poller iteration with a configured observer that returns normally on
this snapshot: the observer is called first, then the status is inspected
exactly as without an observer. -/
theorem PresentationsAPI.waitAux_some_step {ε : Type} (taskId : String)
    (fetch : Nat → Except PresentonError TaskStatusResponse)
    (f : TaskStatusResponse → Except ε Unit) (interval : Nat)
    (fuel i : Nat) (s : TaskStatusResponse)
    (hf : fetch i = .ok s) (hok : f s = .ok ()) :
    PresentationsAPI.waitAux taskId fetch (some f) interval fuel i =
      match s.status with
      | .completed =>
        match s.data with
        | none =>
            (.failure (.GenerationError "Task completed but no data was returned"
              (some taskId) none), [PollEvent.observerCall s], 1)
        | some d => (.success d, [PollEvent.observerCall s], 1)
      | .error =>
          (.failure (.GenerationError (serverErrorMessage s.error)
            (some taskId) s.error), [PollEvent.observerCall s], 1)
      | .pending =>
        match fuel with
        | 0 => (.outOfFuel, [PollEvent.observerCall s, PollEvent.sleep interval], 1)
        | fl + 1 =>
          ((PresentationsAPI.waitAux taskId fetch (some f) interval fl (i + 1)).1,
           PollEvent.observerCall s :: PollEvent.sleep interval ::
             (PresentationsAPI.waitAux taskId fetch (some f) interval fl (i + 1)).2.1,
           (PresentationsAPI.waitAux taskId fetch (some f) interval fl (i + 1)).2.2 + 1) := by
  conv_lhs => unfold PresentationsAPI.waitAux
  rw [hf]
  cases hst : s.status with
  | pending => cases fuel <;> simp [hst, hok, Except.map]
  | completed => cases hd : s.data <;> simp [hst, hd, hok, Except.map]
  | error => simp [hst, hok, Except.map]

/-- Polling through `k` consecutive pending snapshots with no observer: the
loop sleeps `k` times for the configured interval and continues at
iteration `i + k` with the remaining fuel, having fetched `k` extra
snapshots. -/
theorem PresentationsAPI.waitAux_none_reach {ε : Type} (taskId : String)
    (fetch : Nat → Except PresentonError TaskStatusResponse) (interval : Nat)
    (snap : Nat → TaskStatusResponse) :
    ∀ (k fuel i : Nat), k ≤ fuel →
    (∀ j, j < k → fetch (i + j) = .ok (snap (i + j)) ∧
        (snap (i + j)).status = .pending) →
    PresentationsAPI.waitAux (ε := ε) taskId fetch none interval fuel i =
      ((PresentationsAPI.waitAux (ε := ε) taskId fetch none interval (fuel - k) (i + k)).1,
       List.replicate k (PollEvent.sleep interval)
         ++ (PresentationsAPI.waitAux (ε := ε) taskId fetch none interval
              (fuel - k) (i + k)).2.1,
       (PresentationsAPI.waitAux (ε := ε) taskId fetch none interval
          (fuel - k) (i + k)).2.2 + k) := by
  intro k
  induction k with
  | zero =>
      intro fuel i _ _
      simp
  | succ k ih =>
      intro fuel i hle hpend
      obtain ⟨fl, rfl⟩ : ∃ fl, fuel = fl + 1 := ⟨fuel - 1, by omega⟩
      have h0 := hpend 0 (by omega)
      rw [Nat.add_zero] at h0
      rw [PresentationsAPI.waitAux_none_step taskId fetch interval (fl + 1) i
        (snap i) h0.1]
      simp only [h0.2]
      have hshift : ∀ j, j < k → fetch (i + 1 + j) = .ok (snap (i + 1 + j)) ∧
          (snap (i + 1 + j)).status = .pending := by
        intro j hj
        have := hpend (j + 1) (by omega)
        have hidx : i + (j + 1) = i + 1 + j := by omega
        rwa [hidx] at this
      rw [ih fl (i + 1) (by omega) hshift]
      have hfl : fl - k = fl + 1 - (k + 1) := by omega
      have hi : i + 1 + k = i + (k + 1) := by omega
      rw [hfl, hi]
      refine Prod.ext rfl (Prod.ext ?_ ?_)
      · simp [List.replicate_succ]
      · show _ + k + 1 = _ + (k + 1)
        omega

/-- Polling through `k` consecutive pending snapshots with a configured
observer that returns normally on each: every fetched snapshot produces an
observer call followed by a timed suspension, and the loop continues at
iteration `i + k`. -/
theorem PresentationsAPI.waitAux_some_reach {ε : Type} (taskId : String)
    (fetch : Nat → Except PresentonError TaskStatusResponse)
    (f : TaskStatusResponse → Except ε Unit) (interval : Nat)
    (snap : Nat → TaskStatusResponse) :
    ∀ (k fuel i : Nat), k ≤ fuel →
    (∀ j, j < k → fetch (i + j) = .ok (snap (i + j)) ∧
        (snap (i + j)).status = .pending ∧ f (snap (i + j)) = .ok ()) →
    PresentationsAPI.waitAux taskId fetch (some f) interval fuel i =
      ((PresentationsAPI.waitAux taskId fetch (some f) interval (fuel - k) (i + k)).1,
       pollEvents snap interval k i
         ++ (PresentationsAPI.waitAux taskId fetch (some f) interval
              (fuel - k) (i + k)).2.1,
       (PresentationsAPI.waitAux taskId fetch (some f) interval
          (fuel - k) (i + k)).2.2 + k) := by
  intro k
  induction k with
  | zero =>
      intro fuel i _ _
      simp [pollEvents]
  | succ k ih =>
      intro fuel i hle hpend
      obtain ⟨fl, rfl⟩ : ∃ fl, fuel = fl + 1 := ⟨fuel - 1, by omega⟩
      have h0 := hpend 0 (by omega)
      rw [Nat.add_zero] at h0
      rw [PresentationsAPI.waitAux_some_step taskId fetch f interval (fl + 1) i
        (snap i) h0.1 h0.2.2]
      simp only [h0.2.1]
      have hshift : ∀ j, j < k → fetch (i + 1 + j) = .ok (snap (i + 1 + j)) ∧
          (snap (i + 1 + j)).status = .pending ∧ f (snap (i + 1 + j)) = .ok () := by
        intro j hj
        have := hpend (j + 1) (by omega)
        have hidx : i + (j + 1) = i + 1 + j := by omega
        rwa [hidx] at this
      rw [ih fl (i + 1) (by omega) hshift]
      have hfl : fl - k = fl + 1 - (k + 1) := by omega
      have hi : i + 1 + k = i + (k + 1) := by omega
      rw [hfl, hi]
      refine Prod.ext rfl (Prod.ext ?_ ?_)
      · simp [pollEvents]
      · show _ + k + 1 = _ + (k + 1)
        omega

/-- A task id with the `task-` prefix passes validation. -/
theorem validateTaskId_ok (taskId : String)
    (h : stringStartsWith taskId "task-" = true) :
    validateTaskId taskId = .ok () := by
  have hne : ¬ taskId = "" := by
    intro he
    subst he
    revert h
    decide
  unfold validateTaskId
  simp [hne, h]

-- ============================================================================
-- Claims
-- ============================================================================

/-- Claim C6: the backoff policy is the pure function
`min(base * 2^attempt + jitter, 30000)` of the attempt index, the base
delay and the jitter draw, where the jitter `r * 0.3 * base * 2^attempt`
lies in `[0, 0.3 * base * 2^attempt)` for a draw `r` in `[0, 1)`;
equivalently, for `base > 0` the returned delay lies in
`[min(base * 2^attempt, 30000), min(1.3 * base * 2^attempt, 30000)]`. -/
theorem backoff_policy_envelope (attempt : Nat) (baseDelay r : ℚ)
    (hbase : 0 < baseDelay) (h0 : 0 ≤ r) (h1 : r < 1) :
    getBackoffDelay attempt baseDelay r =
      min (baseDelay * 2 ^ attempt + r * (3 / 10) * (baseDelay * 2 ^ attempt))
        30000 ∧
    0 ≤ r * (3 / 10) * (baseDelay * 2 ^ attempt) ∧
    r * (3 / 10) * (baseDelay * 2 ^ attempt) <
      (3 / 10) * (baseDelay * 2 ^ attempt) ∧
    min (baseDelay * 2 ^ attempt) 30000 ≤ getBackoffDelay attempt baseDelay r ∧
    getBackoffDelay attempt baseDelay r ≤
      min ((13 / 10) * (baseDelay * 2 ^ attempt)) 30000 := by
  obtain ⟨⟨hj0, hj1⟩, hlo, hhi⟩ :=
    getBackoffDelay_bounds attempt baseDelay r hbase h0 h1
  exact ⟨rfl, hj0, hj1, hlo, hhi⟩

/-- Witness for C6 at attempt 1, base 1000 ms, draw 1/2. -/
theorem backoff_policy_envelope_witness :
    (0 : ℚ) < 1000 ∧ (0 : ℚ) ≤ 1 / 2 ∧ (1 / 2 : ℚ) < 1 ∧
    (getBackoffDelay 1 1000 (1 / 2) =
        min ((1000 : ℚ) * 2 ^ 1 + (1 / 2) * (3 / 10) * (1000 * 2 ^ 1)) 30000 ∧
      0 ≤ (1 / 2 : ℚ) * (3 / 10) * (1000 * 2 ^ 1) ∧
      (1 / 2 : ℚ) * (3 / 10) * (1000 * 2 ^ 1) < (3 / 10) * (1000 * 2 ^ 1) ∧
      min ((1000 : ℚ) * 2 ^ 1) 30000 ≤ getBackoffDelay 1 1000 (1 / 2) ∧
      getBackoffDelay 1 1000 (1 / 2) ≤ min ((13 / 10) * ((1000 : ℚ) * 2 ^ 1)) 30000) :=
  ⟨by norm_num, by norm_num, by norm_num,
   backoff_policy_envelope 1 1000 (1 / 2) (by norm_num) (by norm_num) (by norm_num)⟩

/-- Claim C1: when the first attempt fails with a non-retryable classified
error (kind `Authentication`, `Validation`, `ClientRequest`,
`ResponseMalformed` or `GenerationFailed`), the engine performs exactly one
attempt, inserts no delay, and propagates that error, for every retry
budget. -/
theorem request_nonretryable_single_attempt {T : Type}
    (op : Nat → Except PresentonError T) (rand : Nat → ℚ) (retryDelay : ℚ)
    (retries : Nat) (e : PresentonError)
    (h0 : op 0 = .error e)
    (hkind : specKind e = .authentication ∨ specKind e = .validation ∨
      specKind e = .clientRequest ∨ specKind e = .responseMalformed ∨
      specKind e = .generationFailed) :
    Presenton.request op rand retryDelay retries = (.error e, [], 1) := by
  have hr : e.isRetryable = false := by
    cases hb : e.isRetryable
    · rfl
    · exfalso
      have := (isRetryable_iff_specKind e).mp hb
      rcases hkind with h | h | h | h | h <;> rcases this with h' | h' | h' <;>
        rw [h] at h' <;> exact SpecErrorKind.noConfusion h'
  exact Presenton.requestAux_nonretryable op rand retryDelay retries 0 e h0 hr

/-- Witness for C1: an authentication failure on attempt 0 with budget 5. -/
theorem request_nonretryable_single_attempt_witness :
    (fun _ : Nat =>
        (Except.error (PresentonError.AuthenticationError
          "Invalid API key or insufficient permissions") : Except PresentonError Unit)) 0 =
      .error (.AuthenticationError "Invalid API key or insufficient permissions") ∧
    specKind (.AuthenticationError "Invalid API key or insufficient permissions") =
      .authentication ∧
    Presenton.request
        (fun _ : Nat =>
          (Except.error (PresentonError.AuthenticationError
            "Invalid API key or insufficient permissions") : Except PresentonError Unit))
        (fun _ => 0) 1000 5 =
      (.error (.AuthenticationError "Invalid API key or insufficient permissions"),
       [], 1) :=
  ⟨rfl, rfl,
   request_nonretryable_single_attempt _ (fun _ => 0) 1000 5 _ rfl (Or.inl rfl)⟩

/-- Claim C2: when every attempt fails with a retryable classified error and
the budget is `retries`, the engine performs exactly `retries + 1` attempts
(hence at most N+1), finally throws the error observed on the last attempt
(never a synthesized one), and each delay before retry attempt `j + 1` is
the rate-limit override `n * 1000` when one applies, otherwise a value in
the exponential-jitter envelope `[base * 2^j, 1.3 * base * 2^j]` capped at
30000 ms. -/
theorem request_retryable_exhaustion {T : Type}
    (op : Nat → Except PresentonError T) (rand : Nat → ℚ) (retryDelay : ℚ)
    (retries : Nat) (errAt : Nat → PresentonError)
    (hop : ∀ j, op j = .error (errAt j))
    (hret : ∀ j, (errAt j).isRetryable = true)
    (hbase : 0 < retryDelay) (hrand : ∀ j, 0 ≤ rand j ∧ rand j < 1) :
    Presenton.request op rand retryDelay retries =
      (.error (errAt retries),
       (List.range retries).map (fun j => retryWait (errAt j) j rand retryDelay),
       retries + 1) ∧
    ∀ j, j < retries →
      ((∀ n, (errAt j).truthyRetryAfter = some n →
          retryWait (errAt j) j rand retryDelay = (n : ℚ) * 1000) ∧
       ((errAt j).truthyRetryAfter = none →
          min (retryDelay * 2 ^ j) 30000 ≤ retryWait (errAt j) j rand retryDelay ∧
          retryWait (errAt j) j rand retryDelay ≤
            min ((13 / 10) * (retryDelay * 2 ^ j)) 30000)) := by
  constructor
  · have h := Presenton.requestAux_allFail op rand retryDelay errAt hop hret retries 0
    simpa [Presenton.request] using h
  · intro j _
    constructor
    · intro n hn
      simp [retryWait, hn]
    · intro hn
      have hb := getBackoffDelay_bounds j retryDelay (rand j) hbase
        (hrand j).1 (hrand j).2
      simpa [retryWait, hn] using hb.2

/-- Witness for C2: every attempt fails with a network error, budget 2,
base 1000 ms, draw 1/2 on every attempt: three attempts, delays 1150 ms and
2300 ms, and the network error is rethrown. -/
theorem request_retryable_exhaustion_witness :
    Presenton.request
        (fun _ : Nat =>
          (Except.error (PresentonError.NetworkError
            "Network request failed: connection reset") : Except PresentonError Unit))
        (fun _ => 1 / 2) 1000 2 =
      (.error (.NetworkError "Network request failed: connection reset"),
       [1150, 2300], 2 + 1) := by
  have h := (request_retryable_exhaustion
    (fun _ : Nat =>
      (Except.error (PresentonError.NetworkError
        "Network request failed: connection reset") : Except PresentonError Unit))
    (fun _ => 1 / 2) 1000 2
    (fun _ => .NetworkError "Network request failed: connection reset")
    (fun _ => rfl) (fun _ => rfl) (by norm_num)
    (fun _ => ⟨by norm_num, by norm_num⟩)).1
  rw [h]
  norm_num [retryWait, PresentonError.truthyRetryAfter, getBackoffDelay,
    List.range_succ]

/-- Counterexample to claim C4 as stated: a `RateLimited` error carrying the
explicit wait duration `retryAfterSeconds = 0`, with a retry attempt
remaining, does not produce a delay of `0 * 1000 = 0` ms; the JS
truthiness test `err.retryAfter` rejects 0 and falls back to the
exponential backoff, here 1000 ms. -/
theorem rate_limit_zero_override_counterexample :
    Presenton.request
        (fun i => if i = 0 then
            Except.error (PresentonError.RateLimitError
              "Rate limit exceeded. Please slow down your requests." (some 0) none)
          else (Except.ok () : Except PresentonError Unit))
        (fun _ => 0) 1000 1 =
      (Except.ok (), [1000], 2) ∧ ((1000 : ℚ) ≠ (0 : ℚ) * 1000) := by
  constructor
  · rw [Presenton.request,
      Presenton.requestAux_step _ _ _ 0 0
        (.RateLimitError "Rate limit exceeded. Please slow down your requests."
          (some 0) none) rfl rfl,
      Presenton.requestAux_ok _ _ _ 0 1 () rfl]
    norm_num [retryWait, PresentonError.truthyRetryAfter, getBackoffDelay]
  · norm_num

/-- Claim C4, amended: for every failed attempt whose classified error is
`RateLimited` and carries an explicit *nonzero* `retryAfterSeconds`, with
retry attempts remaining, the delay inserted before the next attempt is
exactly `retryAfterSeconds * 1000` ms, overriding the computed backoff. -/
theorem rate_limit_override_delay {T : Type}
    (op : Nat → Except PresentonError T) (rand : Nat → ℚ) (retryDelay : ℚ)
    (retries : Nat) (errAt : Nat → PresentonError) (i : Nat)
    (m : String) (n : Nat) (rid : Option String)
    (hprev : ∀ j, j < i → op j = .error (errAt j) ∧ (errAt j).isRetryable = true)
    (hi : op i = .error (.RateLimitError m (some n) rid))
    (hn : n ≠ 0) (hlt : i < retries) :
    (Presenton.request op rand retryDelay retries).2.1.get? i =
      some ((n : ℚ) * 1000) := by
  have hreach := Presenton.requestAux_reach op rand retryDelay errAt i retries 0
    (le_of_lt hlt) (by
      intro j hj
      have := hprev j hj
      simpa using this)
  obtain ⟨r, hr⟩ : ∃ r, retries - i = r + 1 := ⟨retries - i - 1, by omega⟩
  rw [Presenton.request, hreach]
  simp only [Nat.zero_add]
  rw [hr, Presenton.requestAux_step op rand retryDelay r i
    (.RateLimitError m (some n) rid) hi rfl]
  have hlen : ((List.range i).map
      (fun j => retryWait (errAt j) j rand retryDelay)).length = i := by
    simp
  simp only [List.get?_eq_getElem?]
  rw [List.getElem?_append_right (le_of_eq hlen)]
  rw [hlen]
  simp [retryWait, PresentonError.truthyRetryAfter, hn]

/-- Witness for the amended C4, realizing the spec scenario: attempt 0
fails with `RateLimited{retryAfterSeconds: 5}`, budget 1, attempt 1
succeeds; the single delay is exactly 5000 ms. -/
theorem rate_limit_override_delay_witness :
    (Presenton.request
        (fun i => if i = 0 then
            Except.error (PresentonError.RateLimitError
              "Rate limit exceeded. Please slow down your requests." (some 5) none)
          else (Except.ok () : Except PresentonError Unit))
        (fun _ => 0) 1000 1).2.1.get? 0 = some 5000 := by
  have h := rate_limit_override_delay
    (fun i => if i = 0 then
        Except.error (PresentonError.RateLimitError
          "Rate limit exceeded. Please slow down your requests." (some 5) none)
      else (Except.ok () : Except PresentonError Unit))
    (fun _ => 0) 1000 1
    (fun _ => PresentonError.RateLimitError
      "Rate limit exceeded. Please slow down your requests." (some 5) none)
    0 "Rate limit exceeded. Please slow down your requests." 5 none
    (fun j hj => absurd hj (by omega)) rfl (by omega) (by omega)
  have h5 : ((5 : ℕ) : ℚ) * 1000 = 5000 := by norm_num
  rw [h5] at h
  exact h

/-- Claim C5: classification of a single transport attempt.  A transport
failure with no response is a retryable `ServerOrTransient` network error;
401/403 is non-retryable `Authentication`; 429 is retryable `RateLimited`
with the wait duration taken from the `retry-after` header when present and
unset otherwise; 5xx is retryable `ServerOrTransient`; any other status of
at least 400 is non-retryable `ClientRequest`.  (Totality of
`Presenton.doRequest` into `Except PresentonError T` means no unclassified
failure leaves the transport.) -/
theorem transport_classification {T : Type} (msg : String) (r : HttpResponse T) :
    (Presenton.doRequest (T := T) (FetchOutcome.networkFailure msg) =
        .error (.NetworkError ("Network request failed: " ++ msg)) ∧
      specKind (.NetworkError ("Network request failed: " ++ msg)) =
        .serverOrTransient ∧
      (PresentonError.NetworkError ("Network request failed: " ++ msg)).isRetryable =
        true) ∧
    (r.status = 401 ∨ r.status = 403 →
      Presenton.doRequest (FetchOutcome.response r) =
        .error (.AuthenticationError "Invalid API key or insufficient permissions") ∧
      specKind (.AuthenticationError "Invalid API key or insufficient permissions") =
        .authentication ∧
      (PresentonError.AuthenticationError
        "Invalid API key or insufficient permissions").isRetryable = false) ∧
    (r.status = 429 →
      Presenton.doRequest (FetchOutcome.response r) =
        .error (.RateLimitError "Rate limit exceeded. Please slow down your requests."
          r.retryAfterHeader r.requestId) ∧
      specKind (.RateLimitError "Rate limit exceeded. Please slow down your requests."
        r.retryAfterHeader r.requestId) = .rateLimited ∧
      (PresentonError.RateLimitError
        "Rate limit exceeded. Please slow down your requests."
        r.retryAfterHeader r.requestId).isRetryable = true) ∧
    (500 ≤ r.status →
      Presenton.doRequest (FetchOutcome.response r) =
        .error (APIError.fromResponse r.status r.errorBodyMessage r.requestId) ∧
      specKind (APIError.fromResponse r.status r.errorBodyMessage r.requestId) =
        .serverOrTransient ∧
      (APIError.fromResponse r.status r.errorBodyMessage r.requestId).isRetryable =
        true) ∧
    (400 ≤ r.status → r.status < 500 → r.status ≠ 401 → r.status ≠ 403 →
      r.status ≠ 429 →
      Presenton.doRequest (FetchOutcome.response r) =
        .error (APIError.fromResponse r.status r.errorBodyMessage r.requestId) ∧
      specKind (APIError.fromResponse r.status r.errorBodyMessage r.requestId) =
        .clientRequest ∧
      (APIError.fromResponse r.status r.errorBodyMessage r.requestId).isRetryable =
        false) := by
  refine ⟨⟨rfl, rfl, rfl⟩, ?_, ?_, ?_, ?_⟩
  · intro h
    have hok : r.ok = false := by
      simp only [HttpResponse.ok, Bool.and_eq_false_iff, decide_eq_false_iff_not]
      rcases h with h | h <;> rw [h] <;> omega
    refine ⟨?_, rfl, rfl⟩
    simp [Presenton.doRequest, hok, h]
  · intro h
    have hok : r.ok = false := by
      simp only [HttpResponse.ok, Bool.and_eq_false_iff, decide_eq_false_iff_not]
      rw [h]
      omega
    have hnot : ¬ (r.status = 401 ∨ r.status = 403) := by omega
    refine ⟨?_, rfl, rfl⟩
    simp [Presenton.doRequest, hok, hnot, h]
  · intro h
    have hok : r.ok = false := by
      simp only [HttpResponse.ok, Bool.and_eq_false_iff, decide_eq_false_iff_not]
      omega
    have hnot : ¬ (r.status = 401 ∨ r.status = 403) := by omega
    have h429 : r.status ≠ 429 := by omega
    refine ⟨?_, ?_, ?_⟩
    · simp [Presenton.doRequest, hok, hnot, h429]
    · simp [APIError.fromResponse, specKind, h]
    · simp [APIError.fromResponse, PresentonError.isRetryable, h]
  · intro h4 h5 hn1 hn3 hn9
    have hok : r.ok = false := by
      simp only [HttpResponse.ok, Bool.and_eq_false_iff, decide_eq_false_iff_not]
      omega
    have hnot : ¬ (r.status = 401 ∨ r.status = 403) := by omega
    refine ⟨?_, ?_, ?_⟩
    · simp [Presenton.doRequest, hok, hnot, hn9]
    · have : ¬ 500 ≤ r.status := by omega
      have h2 : ¬ (200 ≤ r.status ∧ r.status < 300) := by omega
      simp [APIError.fromResponse, specKind, this, hn9, h2]
    · have : ¬ 500 ≤ r.status := by omega
      simp [APIError.fromResponse, PresentonError.isRetryable, this, hn9]

/-- Witness for C5: a transport failure and a 503 response, classified as
retryable `ServerOrTransient`. -/
theorem transport_classification_witness :
    Presenton.doRequest (T := Unit) (FetchOutcome.networkFailure "boom") =
      .error (.NetworkError ("Network request failed: " ++ "boom")) ∧
    Presenton.doRequest
        (FetchOutcome.response
          (⟨503, none, some "req-1", none, none⟩ : HttpResponse Unit)) =
      .error (APIError.fromResponse 503 none (some "req-1")) ∧
    specKind (APIError.fromResponse 503 none (some "req-1")) = .serverOrTransient ∧
    (APIError.fromResponse 503 none (some "req-1")).isRetryable = true := by
  have h := transport_classification (T := Unit) "boom"
    (⟨503, none, some "req-1", none, none⟩ : HttpResponse Unit)
  exact ⟨h.1.1, (h.2.2.2.1 (by norm_num)).1, (h.2.2.2.1 (by norm_num)).2.1,
    (h.2.2.2.1 (by norm_num)).2.2⟩

/-- Claim C8: a 2xx response whose body fails to parse as the expected
structure yields a non-retryable `APIError` of kind `ResponseMalformed`,
and the retry engine propagates it after exactly one attempt with no
delay. -/
theorem malformed_body_first_occurrence {T : Type} (r : HttpResponse T)
    (op : Nat → Except PresentonError T) (rand : Nat → ℚ) (retryDelay : ℚ)
    (retries : Nat)
    (hlo : 200 ≤ r.status) (hhi : r.status < 300) (hbody : r.jsonBody = none)
    (hop : op 0 = Presenton.doRequest (FetchOutcome.response r)) :
    Presenton.doRequest (FetchOutcome.response r) =
      .error (.APIError "Failed to parse API response as JSON" r.status none
        r.requestId) ∧
    specKind (.APIError "Failed to parse API response as JSON" r.status none
      r.requestId) = .responseMalformed ∧
    (PresentonError.APIError "Failed to parse API response as JSON" r.status none
      r.requestId).isRetryable = false ∧
    Presenton.request op rand retryDelay retries =
      (.error (.APIError "Failed to parse API response as JSON" r.status none
        r.requestId), [], 1) := by
  have hok : r.ok = true := by
    simp only [HttpResponse.ok, Bool.and_eq_true, decide_eq_true_eq]
    omega
  have h5 : ¬ 500 ≤ r.status := by omega
  have h9 : r.status ≠ 429 := by omega
  have h2 : 200 ≤ r.status ∧ r.status < 300 := ⟨hlo, hhi⟩
  have hdo : Presenton.doRequest (FetchOutcome.response r) =
      .error (.APIError "Failed to parse API response as JSON" r.status none
        r.requestId) := by
    simp [Presenton.doRequest, hok, hbody]
  refine ⟨hdo, ?_, ?_, ?_⟩
  · simp [specKind, h5, h9, h2]
  · simp [PresentonError.isRetryable, h5, h9]
  · refine Presenton.requestAux_nonretryable op rand retryDelay retries 0 _ ?_ ?_
    · rw [hop, hdo]
    · simp [PresentonError.isRetryable, h5, h9]

/-- Witness for C8: a 200 response with an unparseable body, retry budget
3: the malformed-response error is propagated after a single attempt. -/
theorem malformed_body_first_occurrence_witness :
    Presenton.doRequest
        (FetchOutcome.response (⟨200, none, none, none, none⟩ : HttpResponse Unit)) =
      .error (.APIError "Failed to parse API response as JSON" 200 none none) ∧
    Presenton.request
        (fun _ => Presenton.doRequest
          (FetchOutcome.response (⟨200, none, none, none, none⟩ : HttpResponse Unit)))
        (fun _ => 0) 1000 3 =
      (.error (.APIError "Failed to parse API response as JSON" 200 none none),
       [], 1) := by
  have h := malformed_body_first_occurrence
    (⟨200, none, none, none, none⟩ : HttpResponse Unit)
    (fun _ => Presenton.doRequest
      (FetchOutcome.response (⟨200, none, none, none, none⟩ : HttpResponse Unit)))
    (fun _ => 0) 1000 3 (by norm_num) (by norm_num) rfl rfl
  exact ⟨h.1, h.2.2.2⟩

/-- With valid inputs, `waitForCompletion` is the poll loop started at
iteration 0 with the configured interval. -/
theorem waitForCompletion_eq_waitAux {ε : Type} (taskId : String)
    (options : PollOptions ε)
    (fetch : Nat → Except PresentonError TaskStatusResponse) (fuel : Nat)
    (hv : validateTaskId taskId = .ok ())
    (ho : validatePollOptions options = .ok ()) :
    PresentationsAPI.waitForCompletion taskId options fetch fuel =
      PresentationsAPI.waitAux taskId fetch options.onStatusChange
        (options.interval.getD 2000) fuel 0 := by
  unfold PresentationsAPI.waitForCompletion
  rw [hv, ho]

/-- Claim C3: when the first `k` snapshots are pending (each causing one
timed suspension of the configured interval before polling again) and the
`(k+1)`-st snapshot is terminal, `waitForCompletion` returns the payload
iff that terminal snapshot is `Completed` with a payload; it fails with a
`GenerationFailed`-kind `GenerationError` when the snapshot is `Completed`
without data, and with a `GenerationFailed`-kind `GenerationError` carrying
the server-reported detail when the snapshot is `Error`. -/
theorem waitForCompletion_terminal {ε : Type} (taskId : String)
    (options : PollOptions ε)
    (fetch : Nat → Except PresentonError TaskStatusResponse)
    (snap : Nat → TaskStatusResponse) (k fuel : Nat) (s : TaskStatusResponse)
    (hv : stringStartsWith taskId "task-" = true)
    (hopt : validatePollOptions options = .ok ())
    (hobs : options.onStatusChange = none)
    (hpend : ∀ j, j < k → fetch j = .ok (snap j) ∧ (snap j).status = .pending)
    (hterm : fetch k = .ok s) (hster : s.status ≠ .pending)
    (hfuel : k ≤ fuel) :
    (∀ v, s.status = .completed → s.data = some v →
      PresentationsAPI.waitForCompletion taskId options fetch fuel =
        (.success v,
         List.replicate k (PollEvent.sleep (options.interval.getD 2000)),
         k + 1)) ∧
    (s.status = .completed → s.data = none →
      PresentationsAPI.waitForCompletion taskId options fetch fuel =
        (.failure (.GenerationError "Task completed but no data was returned"
            (some taskId) none),
         List.replicate k (PollEvent.sleep (options.interval.getD 2000)),
         k + 1)) ∧
    (s.status = .error →
      PresentationsAPI.waitForCompletion taskId options fetch fuel =
        (.failure (.GenerationError (serverErrorMessage s.error)
            (some taskId) s.error),
         List.replicate k (PollEvent.sleep (options.interval.getD 2000)),
         k + 1)) ∧
    specKind (.GenerationError "Task completed but no data was returned"
      (some taskId) none) = .generationFailed ∧
    specKind (.GenerationError (serverErrorMessage s.error) (some taskId)
      s.error) = .generationFailed ∧
    (∀ v evs c,
      PresentationsAPI.waitForCompletion taskId options fetch fuel =
        (.success v, evs, c) →
      s.status = .completed ∧ s.data = some v) := by
  have heq := waitForCompletion_eq_waitAux taskId options fetch fuel
    (validateTaskId_ok taskId hv) hopt
  rw [hobs] at heq
  have hreach := PresentationsAPI.waitAux_none_reach (ε := ε) taskId fetch
    (options.interval.getD 2000) snap k fuel 0 hfuel
    (by intro j hj; simpa using hpend j hj)
  simp only [Nat.zero_add] at hreach
  have hstep := PresentationsAPI.waitAux_none_step (ε := ε) taskId fetch
    (options.interval.getD 2000) (fuel - k) k s hterm
  rw [hreach, hstep] at heq
  refine ⟨?_, ?_, ?_, rfl, rfl, ?_⟩
  · intro v h1 h2
    rw [heq]
    simp [h1, h2, Nat.add_comm]
  · intro h1 h2
    rw [heq]
    simp [h1, h2, Nat.add_comm]
  · intro h1
    rw [heq]
    simp [h1, Nat.add_comm]
  · intro v evs c hv'
    rw [heq] at hv'
    cases hst : s.status with
    | pending => exact absurd hst hster
    | completed =>
        cases hd : s.data with
        | none =>
            rw [hst, hd] at hv'
            simp at hv'
        | some d =>
            rw [hst, hd] at hv'
            simp [Prod.ext_iff] at hv'
            exact ⟨rfl, congrArg some hv'.1⟩
    | error =>
        rw [hst] at hv'
        simp at hv'

/-- A sample result payload for concrete polling runs. -/
def samplePayload : GenerateSyncResponse :=
  { presentationId := "pres-1", path := "/files/pres-1.pptx",
    editPath := "/edit/pres-1", creditsConsumed := 5 }

/-- A pending snapshot of task `task-1`. -/
def pendingSnap : TaskStatusResponse :=
  { message := "Task is pending", createdAt := "2024-01-01T00:00:00Z",
    updatedAt := "2024-01-01T00:00:02Z", taskId := "task-1",
    status := .pending, data := none, error := none }

/-- A completed snapshot of task `task-1` carrying `samplePayload`. -/
def completedSnap : TaskStatusResponse :=
  { message := "Task completed", createdAt := "2024-01-01T00:00:00Z",
    updatedAt := "2024-01-01T00:00:06Z", taskId := "task-1",
    status := .completed, data := some samplePayload, error := none }

/-- Witness for C3: the very first snapshot is `Completed` with a payload;
the poller returns it after one fetch and no suspension. -/
theorem waitForCompletion_terminal_witness :
    PresentationsAPI.waitForCompletion (ε := Unit) "task-1" ⟨some 2000, none⟩
        (fun _ => .ok completedSnap) 0 =
      (.success samplePayload, [], 1) := by
  have h := waitForCompletion_terminal (ε := Unit) "task-1" ⟨some 2000, none⟩
    (fun _ => .ok completedSnap) (fun _ => completedSnap) 0 0 completedSnap
    (by decide) rfl rfl (fun j hj => absurd hj (by omega)) rfl (by decide)
    (by omega)
  have h1 := h.1 samplePayload rfl rfl
  simpa using h1

/-- Claim C7: with an observer configured, the poller invokes it exactly
once per fetched snapshot — the `k` pending ones and the final terminal one
— each invocation preceding the suspension of that iteration and the
termination decision; the event trace is the exact interleaving of observer
calls and sleeps ending in the final observer call. -/
theorem waitForCompletion_observer_per_snapshot {ε : Type} (taskId : String)
    (options : PollOptions ε)
    (fetch : Nat → Except PresentonError TaskStatusResponse)
    (snap : Nat → TaskStatusResponse) (k fuel : Nat) (s : TaskStatusResponse)
    (f : TaskStatusResponse → Except ε Unit)
    (hv : stringStartsWith taskId "task-" = true)
    (hopt : validatePollOptions options = .ok ())
    (hobs : options.onStatusChange = some f)
    (hpend : ∀ j, j < k → fetch j = .ok (snap j) ∧
      (snap j).status = .pending ∧ f (snap j) = .ok ())
    (hterm : fetch k = .ok s) (hster : s.status ≠ .pending)
    (hfok : f s = .ok ()) (hfuel : k ≤ fuel) :
    (PresentationsAPI.waitForCompletion taskId options fetch fuel).2.1 =
      pollEvents snap (options.interval.getD 2000) k 0
        ++ [PollEvent.observerCall s] ∧
    (PresentationsAPI.waitForCompletion taskId options fetch fuel).2.2 = k + 1 ∧
    (∀ v, s.status = .completed → s.data = some v →
      PresentationsAPI.waitForCompletion taskId options fetch fuel =
        (.success v,
         pollEvents snap (options.interval.getD 2000) k 0
           ++ [PollEvent.observerCall s],
         k + 1)) := by
  have heq := waitForCompletion_eq_waitAux taskId options fetch fuel
    (validateTaskId_ok taskId hv) hopt
  rw [hobs] at heq
  have hreach := PresentationsAPI.waitAux_some_reach taskId fetch f
    (options.interval.getD 2000) snap k fuel 0 hfuel
    (by intro j hj; simpa using hpend j hj)
  simp only [Nat.zero_add] at hreach
  have hstep := PresentationsAPI.waitAux_some_step taskId fetch f
    (options.interval.getD 2000) (fuel - k) k s hterm hfok
  rw [hreach, hstep] at heq
  refine ⟨?_, ?_, ?_⟩
  · rw [heq]
    cases hst : s.status with
    | pending => exact absurd hst hster
    | completed => cases hd : s.data <;> simp [hst, hd]
    | error => simp [hst]
  · rw [heq]
    cases hst : s.status with
    | pending => exact absurd hst hster
    | completed => cases hd : s.data <;> simp [hst, hd, Nat.add_comm]
    | error => simp [hst, Nat.add_comm]
  · intro v h1 h2
    rw [heq]
    simp [h1, h2, Nat.add_comm]

/-- Witness for C7, realizing the spec scenario: snapshots
{Pending, Pending, Completed+payload} at a 2000 ms interval produce two
2000 ms suspensions and three observer calls, the last on the terminal
snapshot, and the payload is returned. -/
theorem waitForCompletion_observer_per_snapshot_witness :
    PresentationsAPI.waitForCompletion (ε := Unit) "task-1"
        ⟨some 2000, some (fun _ => .ok ())⟩
        (fun i => if i < 2 then .ok pendingSnap else .ok completedSnap) 2 =
      (.success samplePayload,
       [PollEvent.observerCall pendingSnap, PollEvent.sleep 2000,
        PollEvent.observerCall pendingSnap, PollEvent.sleep 2000,
        PollEvent.observerCall completedSnap],
       3) := by
  have h := (waitForCompletion_observer_per_snapshot (ε := Unit) "task-1"
    ⟨some 2000, some (fun _ => .ok ())⟩
    (fun i => if i < 2 then .ok pendingSnap else .ok completedSnap)
    (fun _ => pendingSnap) 2 2 completedSnap (fun _ => .ok ())
    (by decide) rfl rfl
    (by
      intro j hj
      refine ⟨?_, rfl, rfl⟩
      simp [hj])
    (by norm_num) (by decide) rfl (by omega)).2.2 samplePayload rfl rfl
  simpa [pollEvents] using h

/-- Claim C9: if the configured observer raises on a fetched snapshot, the
poller stops at once and propagates that exception unchanged (as an
`observerRaised` outcome in the exception type of the observer, outside the
classified-error taxonomy): the trace ends at that observer call, with no
sleep after it and no further snapshot fetched. -/
theorem waitForCompletion_observer_exception {ε : Type} (taskId : String)
    (options : PollOptions ε)
    (fetch : Nat → Except PresentonError TaskStatusResponse)
    (snap : Nat → TaskStatusResponse) (k fuel : Nat) (s : TaskStatusResponse)
    (f : TaskStatusResponse → Except ε Unit) (e : ε)
    (hv : stringStartsWith taskId "task-" = true)
    (hopt : validatePollOptions options = .ok ())
    (hobs : options.onStatusChange = some f)
    (hpend : ∀ j, j < k → fetch j = .ok (snap j) ∧
      (snap j).status = .pending ∧ f (snap j) = .ok ())
    (hterm : fetch k = .ok s) (hraise : f s = .error e) (hfuel : k ≤ fuel) :
    PresentationsAPI.waitForCompletion taskId options fetch fuel =
      (.observerRaised e,
       pollEvents snap (options.interval.getD 2000) k 0
         ++ [PollEvent.observerCall s],
       k + 1) := by
  have heq := waitForCompletion_eq_waitAux taskId options fetch fuel
    (validateTaskId_ok taskId hv) hopt
  rw [hobs] at heq
  have hreach := PresentationsAPI.waitAux_some_reach taskId fetch f
    (options.interval.getD 2000) snap k fuel 0 hfuel
    (by intro j hj; simpa using hpend j hj)
  simp only [Nat.zero_add] at hreach
  have hstep := PresentationsAPI.waitAux_observerRaises taskId fetch f
    (options.interval.getD 2000) (fuel - k) k s e hterm hraise
  rw [hreach, hstep] at heq
  rw [heq]
  simp [Nat.add_comm]

/-- Witness for C9: the observer raises on the very first snapshot — which
is still pending — so polling stops before any status inspection, after a
single fetch, propagating the exception string unchanged. -/
theorem waitForCompletion_observer_exception_witness :
    PresentationsAPI.waitForCompletion (ε := String) "task-1"
        ⟨some 2000, some (fun _ => .error "callback exploded")⟩
        (fun _ => .ok pendingSnap) 5 =
      (.observerRaised "callback exploded",
       [PollEvent.observerCall pendingSnap], 1) := by
  have h := waitForCompletion_observer_exception (ε := String) "task-1"
    ⟨some 2000, some (fun _ => .error "callback exploded")⟩
    (fun _ => .ok pendingSnap) (fun _ => pendingSnap) 0 5 pendingSnap
    (fun _ => .error "callback exploded") "callback exploded"
    (by decide) rfl rfl (fun j hj => absurd hj (by omega)) rfl rfl (by omega)
  simpa [pollEvents] using h

/-- Claim C10: for every task id that is empty or lacks the `task-` prefix,
both `getStatus` and `waitForCompletion` fail with a non-retryable
`Validation`-kind error and issue zero network requests. -/
theorem taskId_validation_guards {ε : Type} (taskId : String)
    (fetchResult : Except PresentonError TaskStatusResponse)
    (options : PollOptions ε)
    (fetch : Nat → Except PresentonError TaskStatusResponse) (fuel : Nat)
    (hbad : taskId = "" ∨ stringStartsWith taskId "task-" = false) :
    ∃ msg det, validateTaskId taskId = .error (.ValidationError msg det none) ∧
      (PresentonError.ValidationError msg det none).isRetryable = false ∧
      specKind (.ValidationError msg det none) = .validation ∧
      PresentationsAPI.getStatus taskId fetchResult =
        (.error (.ValidationError msg det none), 0) ∧
      PresentationsAPI.waitForCompletion taskId options fetch fuel =
        (.failure (.ValidationError msg det none), [], 0) := by
  by_cases he : taskId = ""
  · have hval : validateTaskId taskId =
        .error (.ValidationError "Task ID is required and must be a string"
          [{ field := "taskId",
             message := "Task ID is required and must be a string",
             received := some taskId,
             expected := some "string (e.g., \x27task-xxxxxxxxxx\x27)" }] none) := by
      unfold validateTaskId
      rw [if_pos he]
    exact ⟨_, _, hval, rfl, rfl,
      by simp [PresentationsAPI.getStatus, hval],
      by simp [PresentationsAPI.waitForCompletion, hval]⟩
  · have hsw : stringStartsWith taskId "task-" = false := by
      rcases hbad with h | h
      · exact absurd h he
      · exact h
    have hval : validateTaskId taskId =
        .error (.ValidationError
          ("Invalid task ID format. Expected format: \"task-xxxxxxxxxx\", received: \""
            ++ taskId ++ "\"")
          [{ field := "taskId",
             message := "Task ID must start with \"task-\"",
             received := some taskId,
             expected := some "task-xxxxxxxxxx" }] none) := by
      unfold validateTaskId
      rw [if_neg he, if_pos hsw]
    exact ⟨_, _, hval, rfl, rfl,
      by simp [PresentationsAPI.getStatus, hval],
      by simp [PresentationsAPI.waitForCompletion, hval]⟩

/-- Witness for C10: the task id `abc` (no `task-` prefix) is rejected by
validation with zero network requests from both entry points. -/
theorem taskId_validation_guards_witness :
    ("abc" = "" ∨ stringStartsWith "abc" "task-" = false) ∧
    (∃ msg det, validateTaskId "abc" = .error (.ValidationError msg det none) ∧
      (PresentonError.ValidationError msg det none).isRetryable = false ∧
      specKind (.ValidationError msg det none) = .validation ∧
      PresentationsAPI.getStatus "abc" (.ok pendingSnap) =
        (.error (.ValidationError msg det none), 0) ∧
      PresentationsAPI.waitForCompletion (ε := Unit) "abc" ⟨some 2000, none⟩
          (fun _ => .ok pendingSnap) 5 =
        (.failure (.ValidationError msg det none), [], 0)) :=
  ⟨Or.inr (by decide),
   taskId_validation_guards "abc" (.ok pendingSnap) ⟨some 2000, none⟩
     (fun _ => .ok pendingSnap) 5 (Or.inr (by decide))⟩
